import Mathlib

/-!
Verification of the smile-mirror verification engine (script.js).

JavaScript numbers are modelled as rationals; the pseudo-random inputs of the
source (variance, simulated metrics, the attempt record computed by the
scheduled triggerSmileVerification) are passed as explicit parameters, and
wall-clock time (Date.now) is an explicit argument. Math.sin and Math.cos are
passed as explicit function parameters msin and mcos, since the statements
about the fallback tracker hold for every choice of those primitives.
-/

namespace SmileMirror

/-! Data model: sub-metrics, attempts, controller state (script.js, constructor). -/

structure SubMetrics where
  mouthCurvature : ℚ
  eyeSymmetry : ℚ
  smileIntensity : ℚ
  mouthWidth : ℚ
  facialTension : ℚ
deriving DecidableEq, Repr

/-- The weighted combination computed identically inside calculateRealisticScore
and calculateSimulatedScore (script.js lines 634-640 and 674-680). -/
def weightedBase (m : SubMetrics) : ℚ :=
  m.mouthCurvature * (3/10) +
  m.eyeSymmetry * (2/10) +
  m.smileIntensity * (3/10) +
  m.mouthWidth * (1/10) +
  (100 - m.facialTension) * (1/10)

/-- calculateRealisticScore (script.js lines 632-659): weighted base, then the
switch on level applies Math.min with the cap followed by Math.max with the
floor; levels outside 1..3 fall through the switch unchanged. -/
def calculateRealisticScore (m : SubMetrics) (level : ℕ) : ℚ :=
  let baseScore := weightedBase m
  match level with
  | 1 => max (min baseScore 75) 55
  | 2 => max (min baseScore 65) 40
  | 3 => max (min baseScore 45) 25
  | _ => baseScore

/-- calculateSimulatedScore (script.js lines 673-699): textually the same
computation as calculateRealisticScore, duplicated in the source. -/
def calculateSimulatedScore (m : SubMetrics) (level : ℕ) : ℚ :=
  let baseScore := weightedBase m
  match level with
  | 1 => max (min baseScore 75) 55
  | 2 => max (min baseScore 65) 40
  | 3 => max (min baseScore 45) 25
  | _ => baseScore

/-- generateSmileScore (script.js lines 566-588). useReal selects the real-
metrics branch (isModelLoaded and realLandmarks nonempty) versus the simulated
branch; variance stands for (Math.random() - 0.5) * 6 and is quantified over
all rationals, which is even wider than the ±3 the source can produce. The
final clamp Math.max(5, Math.min(79, baseScore + variance)) is the whole
story for the no-pass bound. -/
def generateSmileScore (useReal : Bool) (m : SubMetrics) (level : ℕ) (variance : ℚ) : ℚ :=
  let baseScore :=
    if useReal then calculateRealisticScore m level else calculateSimulatedScore m level
  max 5 (min 79 (baseScore + variance))

/-- ChallengeAttempt: the record stored in this.currentSmileScoreData by
triggerSmileVerification (script.js line 712). -/
structure Attempt where
  score : ℚ
  subMetrics : SubMetrics
deriving DecidableEq, Repr

/-- Controller state owned by the DigitalMirror instance (script.js
constructor): smileLevel, humanityPercentage, the isAnalyzing flag set by
startFakeAnalysis, isProcessing, lastTriggerTime, and the last attempt
record currentSmileScoreData. -/
structure MirrorState where
  smileLevel : ℕ
  humanityPercentage : ℤ
  isAnalyzing : Bool
  isProcessing : Bool
  lastTriggerTime : ℚ
  currentSmileScoreData : Option Attempt
deriving DecidableEq, Repr

def maxSmileLevel : ℕ := 3

/-- Initial state from the constructor (script.js lines 29-40). -/
def initState : MirrorState :=
  { smileLevel := 0
    humanityPercentage := 100
    isAnalyzing := false
    isProcessing := false
    lastTriggerTime := 0
    currentSmileScoreData := none }

/-- processHumanClaim (script.js lines 493-540). The only guard is
smileLevel >= maxSmileLevel; otherwise both the first-claim branch and the
general branch increment smileLevel, recompute humanityPercentage as
Math.max(0, 100 - smileLevel * 25), and schedule triggerSmileVerification,
which stores a fresh attempt (passed here as the parameter a, since its score
involves Math.random) and calls startFakeAnalysis, which sets
isAnalyzing = true (line 785). The returned Bool records whether a new
analysis cycle was started. -/
def processHumanClaim (s : MirrorState) (a : Attempt) : MirrorState × Bool :=
  if maxSmileLevel ≤ s.smileLevel then
    (s, false)
  else
    ({ s with
        smileLevel := s.smileLevel + 1
        humanityPercentage := max 0 (100 - ((s.smileLevel : ℤ) + 1) * 25)
        isAnalyzing := true
        currentSmileScoreData := some a },
     true)

/-- resetMirror (script.js lines 1850-1899): resets smileLevel,
humanityPercentage, lastTriggerTime, isProcessing and isAnalyzing, clears
timers and the overlay. It never touches currentSmileScoreData. -/
def resetMirror (s : MirrorState) : MirrorState :=
  { s with
      smileLevel := 0
      humanityPercentage := 100
      lastTriggerTime := 0
      isProcessing := false
      isAnalyzing := false }

/-- External events reaching the controller: a claim (speech, keyboard,
click, or the test button all call processHumanClaim) carrying the attempt
the scheduled verification will store, and the reset button. -/
inductive Ev where
  | claim (a : Attempt)
  | reset
deriving DecidableEq, Repr

def stepEv (s : MirrorState) : Ev → MirrorState
  | .claim a => (processHumanClaim s a).1
  | .reset => resetMirror s

/-- Run a sequence of claim and reset events from the initial state. -/
def run (evs : List Ev) : MirrorState :=
  evs.foldl stepEv initState

/-! Claims C1 and C2: scoring. -/

/-- Claim C1: for every level, every SubMetrics input and every variance, the
final score returned by generateSmileScore lies in [5, 79] and hence is
strictly below the passing threshold 80; this is proved for all levels, which
covers levels 1..3. -/
theorem generateSmileScore_below_pass_threshold
    (useReal : Bool) (m : SubMetrics) (level : ℕ) (variance : ℚ) :
    5 ≤ generateSmileScore useReal m level variance ∧
    generateSmileScore useReal m level variance ≤ 79 ∧
    generateSmileScore useReal m level variance < 80 := by
  have hle : generateSmileScore useReal m level variance ≤ 79 := by
    unfold generateSmileScore
    exact max_le (by norm_num) (min_le_left _ _)
  refine ⟨?_, hle, lt_of_le_of_lt hle (by norm_num)⟩
  unfold generateSmileScore
  exact le_max_left _ _

/-- Claim C2: the base score is the weighted sum with weights 0.3, 0.2, 0.3,
0.1, 0.1 on mouthCurvature, eyeSymmetry, smileIntensity, mouthWidth and
100 - facialTension, and both scoring functions clamp it into the band
[55, 75] for level 1, [40, 65] for level 2 and [25, 45] for level 3; the
bands strictly decrease as level increases. -/
theorem scoring_weighted_base_and_level_bands :
    (∀ m : SubMetrics,
      weightedBase m =
        m.mouthCurvature * (3/10) + m.eyeSymmetry * (2/10) +
        m.smileIntensity * (3/10) + m.mouthWidth * (1/10) +
        (100 - m.facialTension) * (1/10) ∧
      calculateRealisticScore m 1 = max (min (weightedBase m) 75) 55 ∧
      calculateRealisticScore m 2 = max (min (weightedBase m) 65) 40 ∧
      calculateRealisticScore m 3 = max (min (weightedBase m) 45) 25 ∧
      calculateSimulatedScore m 1 = max (min (weightedBase m) 75) 55 ∧
      calculateSimulatedScore m 2 = max (min (weightedBase m) 65) 40 ∧
      calculateSimulatedScore m 3 = max (min (weightedBase m) 45) 25 ∧
      (55 ≤ calculateRealisticScore m 1 ∧ calculateRealisticScore m 1 ≤ 75) ∧
      (40 ≤ calculateRealisticScore m 2 ∧ calculateRealisticScore m 2 ≤ 65) ∧
      (25 ≤ calculateRealisticScore m 3 ∧ calculateRealisticScore m 3 ≤ 45) ∧
      (55 ≤ calculateSimulatedScore m 1 ∧ calculateSimulatedScore m 1 ≤ 75) ∧
      (40 ≤ calculateSimulatedScore m 2 ∧ calculateSimulatedScore m 2 ≤ 65) ∧
      (25 ≤ calculateSimulatedScore m 3 ∧ calculateSimulatedScore m 3 ≤ 45)) ∧
    ((55 : ℚ) > 40 ∧ (40 : ℚ) > 25 ∧ (75 : ℚ) > 65 ∧ (65 : ℚ) > 45) := by
  refine ⟨fun m => ?_, by norm_num⟩
  refine ⟨rfl, rfl, rfl, rfl, rfl, rfl, rfl, ?_, ?_, ?_, ?_, ?_, ?_⟩ <;>
    exact ⟨le_max_right _ _, max_le (min_le_right _ _) (by norm_num)⟩

/-! Claims C3, C4, C5: the controller state machine. -/

/-- Sample attempt used to instantiate the randomness parameter in concrete
runs (the values follow the scenario in the spec, section 8). -/
def sampleAttempt : Attempt :=
  { score := 61, subMetrics := ⟨60, 70, 50, 80, 40⟩ }

def sampleAttempt2 : Attempt :=
  { score := 45, subMetrics := ⟨50, 60, 40, 70, 50⟩ }

/-- Claim C3 counterexample: after one claim from the initial state the
controller is analyzing (isAnalyzing = true) at smileLevel 1, yet a second
call to processHumanClaim increments smileLevel to 2 and starts a second
analysis cycle; the source has no isAnalyzing guard, only the
smileLevel >= maxSmileLevel guard. -/
theorem processHumanClaim_during_analysis_mutates_level :
    (run [Ev.claim sampleAttempt]).isAnalyzing = true ∧
    ((processHumanClaim (run [Ev.claim sampleAttempt]) sampleAttempt2).1.smileLevel ≠
      (run [Ev.claim sampleAttempt]).smileLevel) ∧
    (processHumanClaim (run [Ev.claim sampleAttempt]) sampleAttempt2).2 = true := by
  refine ⟨rfl, ?_, rfl⟩
  decide

/-- Claim C3 amended: a call to processHumanClaim while an analysis is in
progress is ignored (state unchanged, no new analysis cycle) exactly when
smileLevel has reached maxSmileLevel; at any lower level the call increments
smileLevel and starts a second analysis cycle even though isAnalyzing is
true. -/
theorem processHumanClaim_level_guard (s : MirrorState) (a : Attempt)
    (hA : s.isAnalyzing = true) :
    (maxSmileLevel ≤ s.smileLevel → processHumanClaim s a = (s, false)) ∧
    (s.smileLevel < maxSmileLevel →
      (processHumanClaim s a).1.smileLevel = s.smileLevel + 1 ∧
      (processHumanClaim s a).2 = true) := by
  constructor
  · intro h
    unfold processHumanClaim
    simp [h]
  · intro h
    unfold processHumanClaim
    rw [if_neg (by omega)]
    exact ⟨rfl, rfl⟩

/-- Witness for processHumanClaim_level_guard at a concrete analyzing state. -/
theorem processHumanClaim_level_guard_witness :
    (maxSmileLevel ≤ (run [Ev.claim sampleAttempt]).smileLevel →
      processHumanClaim (run [Ev.claim sampleAttempt]) sampleAttempt2 =
        (run [Ev.claim sampleAttempt], false)) ∧
    ((run [Ev.claim sampleAttempt]).smileLevel < maxSmileLevel →
      (processHumanClaim (run [Ev.claim sampleAttempt]) sampleAttempt2).1.smileLevel =
        (run [Ev.claim sampleAttempt]).smileLevel + 1 ∧
      (processHumanClaim (run [Ev.claim sampleAttempt]) sampleAttempt2).2 = true) :=
  processHumanClaim_level_guard (run [Ev.claim sampleAttempt]) sampleAttempt2 rfl

/-- Claim C4 counterexample: from the reachable state after one claim, the
stored attempt is some sampleAttempt; resetMirror restores smileLevel = 0
and humanityPercentage = 100 but the last ChallengeAttempt survives the
reset instead of being discarded. -/
theorem resetMirror_retains_last_attempt_cex :
    (resetMirror (run [Ev.claim sampleAttempt])).smileLevel = 0 ∧
    (resetMirror (run [Ev.claim sampleAttempt])).humanityPercentage = 100 ∧
    (run [Ev.claim sampleAttempt]).currentSmileScoreData = some sampleAttempt ∧
    (resetMirror (run [Ev.claim sampleAttempt])).currentSmileScoreData ≠ none := by
  refine ⟨rfl, rfl, rfl, ?_⟩
  decide

/-- Claim C4 amended: from every state, resetMirror sets smileLevel to 0,
humanityPercentage to 100 and clears the analyzing flag, but it leaves
currentSmileScoreData (the last ChallengeAttempt) unchanged rather than
discarding it. -/
theorem resetMirror_restores_initial_counters (s : MirrorState) :
    (resetMirror s).smileLevel = 0 ∧
    (resetMirror s).humanityPercentage = 100 ∧
    (resetMirror s).isAnalyzing = false ∧
    (resetMirror s).currentSmileScoreData = s.currentSmileScoreData :=
  ⟨rfl, rfl, rfl, rfl⟩

/-- The C5 state invariant. -/
def SessionInv (s : MirrorState) : Prop :=
  s.humanityPercentage = max 0 (100 - 25 * (s.smileLevel : ℤ)) ∧
  s.smileLevel ≤ maxSmileLevel

lemma sessionInv_init : SessionInv initState := by
  constructor <;> simp [initState, maxSmileLevel]

lemma sessionInv_step (s : MirrorState) (e : Ev) (h : SessionInv s) :
    SessionInv (stepEv s e) := by
  obtain ⟨hp, hl⟩ := h
  cases e with
  | claim a =>
    show SessionInv (processHumanClaim s a).1
    unfold processHumanClaim
    by_cases hc : maxSmileLevel ≤ s.smileLevel
    · rw [if_pos hc]
      exact ⟨hp, hl⟩
    · rw [if_neg hc]
      refine ⟨?_, ?_⟩
      · show max 0 (100 - ((s.smileLevel : ℤ) + 1) * 25) =
          max 0 (100 - 25 * ((s.smileLevel + 1 : ℕ) : ℤ))
        push_cast
        ring_nf
      · show s.smileLevel + 1 ≤ maxSmileLevel
        unfold maxSmileLevel at *
        omega
  | reset =>
    exact ⟨rfl, by simp [resetMirror, stepEv, maxSmileLevel]⟩

lemma sessionInv_foldl (evs : List Ev) :
    ∀ s : MirrorState, SessionInv s → SessionInv (evs.foldl stepEv s) := by
  induction evs with
  | nil => exact fun s h => h
  | cons e rest ih => exact fun s h => ih (stepEv s e) (sessionInv_step s e h)

/-- Claim C5: in every state reachable by claim and reset events in the
smile-gate variant, humanityPercentage = max(0, 100 - 25 * smileLevel) and
smileLevel lies in 0..maxSmileLevel; moreover each claim step never
decreases the level and reset returns it to 0. -/
theorem session_invariant_smile_gate (evs : List Ev) :
    (run evs).humanityPercentage = max 0 (100 - 25 * ((run evs).smileLevel : ℤ)) ∧
    (run evs).smileLevel ≤ maxSmileLevel ∧
    (∀ (s : MirrorState) (a : Attempt),
      s.smileLevel ≤ (processHumanClaim s a).1.smileLevel) ∧
    (∀ s : MirrorState, (resetMirror s).smileLevel = 0) := by
  have h := sessionInv_foldl evs initState sessionInv_init
  refine ⟨h.1, h.2, fun s a => ?_, fun s => rfl⟩
  unfold processHumanClaim
  by_cases hc : maxSmileLevel ≤ s.smileLevel
  · rw [if_pos hc]
  · rw [if_neg hc]
    exact Nat.le_succ _

/-! Tracking pipeline data model (script.js, constructor and lines 907-1204). -/

/-- A stored landmark: the source always stores arrays [pixelX, pixelY, z]
with exactly three numeric components. -/
structure P3 where
  x : ℚ
  y : ℚ
  z : ℚ
deriving DecidableEq, Repr

/-- faceBoundingBox in center-plus-extent form: x and y are the center
(script.js lines 1177-1182). -/
structure Box where
  x : ℚ
  y : ℚ
  width : ℚ
  height : ℚ
deriving DecidableEq, Repr

/-- A normalized bounding box summary as consumed by
createBasicLandmarksFromBoundingBox (fields xCenter, yCenter, width,
height in [0,1]-normalized units). -/
structure NormBox where
  xCenter : ℚ
  yCenter : ℚ
  width : ℚ
  height : ℚ
deriving DecidableEq, Repr

/-- A detector keypoint carrying x and y either in object form with keys
x, y and optional z, or positional form with entries 0, 1 and optional 2
(script.js lines 1076-1085). -/
inductive Keypoint where
  | objPt (x y : ℚ) (z : Option ℚ)
  | arrPt (x y : ℚ) (z : Option ℚ)
deriving DecidableEq, Repr

def Keypoint.rawX : Keypoint → ℚ
  | .objPt x _ _ => x
  | .arrPt x _ _ => x

def Keypoint.rawY : Keypoint → ℚ
  | .objPt _ y _ => y
  | .arrPt _ y _ => y

def Keypoint.zRaw : Keypoint → Option ℚ
  | .objPt _ _ z => z
  | .arrPt _ _ z => z

/-- Coordinate conversion inside extractLandmarks (script.js lines
1072-1102): z defaults to 0 when absent, and a point whose x and y both lie
in [0,1] is treated as normalized and scaled by the video dimensions; z is
never scaled. -/
def convertKeypoint (w h : ℚ) (kp : Keypoint) : P3 :=
  let x := kp.rawX
  let y := kp.rawY
  let z := kp.zRaw.getD 0
  if x ≤ 1 ∧ y ≤ 1 ∧ 0 ≤ x ∧ 0 ≤ y then ⟨x * w, y * h, z⟩ else ⟨x, y, z⟩

/-- createBasicLandmarksFromBoundingBox (script.js lines 1120-1145): six
fixed feature points derived from a normalized box, all with z = 0. -/
def createBasicLandmarksFromBoundingBox (w h : ℚ) (bb : NormBox) : List P3 :=
  let centerX := bb.xCenter * w
  let centerY := bb.yCenter * h
  let bw := bb.width * w
  let bh := bb.height * h
  [⟨centerX - bw * (2/10), centerY - bh * (15/100), 0⟩,
   ⟨centerX + bw * (2/10), centerY - bh * (15/100), 0⟩,
   ⟨centerX, centerY, 0⟩,
   ⟨centerX - bw * (15/100), centerY + bh * (2/10), 0⟩,
   ⟨centerX + bw * (15/100), centerY + bh * (2/10), 0⟩,
   ⟨centerX, centerY + bh * (35/100), 0⟩]

/-- landmarkSmoothingFactor (script.js line 68). -/
def landmarkSmoothingFactor : ℚ := 7/10

/-- The per-point exponential filter of smoothLandmarks (script.js lines
1154-1158): oldPoint + (newPoint - oldPoint) * landmarkSmoothingFactor on
each of the three coordinates. -/
def blendPoint (op np : P3) : P3 :=
  ⟨op.x + (np.x - op.x) * landmarkSmoothingFactor,
   op.y + (np.y - op.y) * landmarkSmoothingFactor,
   op.z + (np.z - op.z) * landmarkSmoothingFactor⟩

/-- The map of smoothLandmarks over the new frame: at each index the old
point is this.smoothedLandmarks[index] falling back to the new point when
the old frame is shorter (the || newPoint default, script.js line 1153). -/
def smoothAux : List P3 → List P3 → List P3
  | [], _ => []
  | np :: nps, [] => blendPoint np np :: smoothAux nps []
  | np :: nps, op :: ops => blendPoint op np :: smoothAux nps ops

/-- smoothLandmarks (script.js lines 1148-1162): when the smoothed frame is
empty the new frame is adopted unchanged; otherwise each point is blended. -/
def smoothLandmarks (smoothed newL : List P3) : List P3 :=
  if smoothed = [] then newL else smoothAux newL smoothed

/-- The distance helper (script.js lines 702-707) computes
Math.sqrt(dx*dx + dy*dy + dz*dz); its radicand is modelled here, and the
square root of a nonnegative rational is a well-defined real number. -/
def distanceSq (p q : P3) : ℚ :=
  let dx := p.x - q.x
  let dy := p.y - q.y
  let dz := p.z - q.z
  dx * dx + dy * dy + dz * dz

/-- Tracker state: video dimensions and availability flags together with the
landmark and box state owned by the tracker (script.js constructor lines
59-68). -/
structure TrackState where
  videoWidth : ℚ
  videoHeight : ℚ
  webcamPresent : Bool
  isModelLoaded : Bool
  modelPresent : Bool
  realLandmarks : List P3
  smoothedLandmarks : List P3
  faceBoundingBox : Option Box
  faceCenter : ℚ × ℚ
deriving DecidableEq, Repr

/-- Minimum of a list of rationals; used only on nonempty lists, mirroring
Math.min(...xs). -/
def listMin : List ℚ → ℚ
  | [] => 0
  | x :: xs => xs.foldl min x

def listMax : List ℚ → ℚ
  | [] => 0
  | x :: xs => xs.foldl max x

/-- The box computed from the min/max extents of a landmark list in
center-plus-extent form (script.js lines 1170-1182). -/
def extentsBox (lms : List P3) : Box :=
  let xs := lms.map P3.x
  let ys := lms.map P3.y
  ⟨(listMin xs + listMax xs) / 2, (listMin ys + listMax ys) / 2,
   listMax xs - listMin xs, listMax ys - listMin ys⟩

/-- updateFaceBoundingBox (script.js lines 1165-1204): does nothing when no
landmarks are held; otherwise computes the extents box of the landmarks held
at call time, adopts it directly for the first box and otherwise moves each
stored component 0.3 of the way toward it, and mirrors faceCenter from the
stored box center. -/
def updateFaceBoundingBox (s : TrackState) : TrackState :=
  if s.realLandmarks = [] then s
  else
    let newBox := extentsBox s.realLandmarks
    let box :=
      match s.faceBoundingBox with
      | none => newBox
      | some old =>
          ⟨old.x + (newBox.x - old.x) * (3/10),
           old.y + (newBox.y - old.y) * (3/10),
           old.width + (newBox.width - old.width) * (3/10),
           old.height + (newBox.height - old.height) * (3/10)⟩
    { s with faceBoundingBox := some box, faceCenter := (box.x, box.y) }

/-- A raw face record as probed by extractLandmarks: three possible keypoint
fields plus an optional bounding-box summary. -/
structure Face where
  keypoints : List Keypoint
  landmarks : List Keypoint
  scaledMesh : List Keypoint
  boundingBox : Option NormBox
deriving DecidableEq, Repr

/-- Common tail of createBasicLandmarksFromBoundingBox: store the six basic
points as both realLandmarks and smoothedLandmarks (script.js lines
1143-1144). -/
def setLandmarksFromBasic (s : TrackState) (bb : NormBox) : TrackState :=
  let basic := createBasicLandmarksFromBoundingBox s.videoWidth s.videoHeight bb
  { s with realLandmarks := basic, smoothedLandmarks := basic }

/-- extractLandmarks (script.js lines 1044-1117): prefer keypoints, then
landmarks, then scaledMesh; with none of them present fall back to the
bounding-box summary or leave the state unchanged. The converted frame
initializes both landmark lists when none were held, and otherwise is
smoothed; smoothLandmarks ends by assigning realLandmarks from the smoothed
list (script.js line 1161). -/
def extractLandmarks (s : TrackState) (f : Face) : TrackState :=
  let kps :=
    if f.keypoints ≠ [] then some f.keypoints
    else if f.landmarks ≠ [] then some f.landmarks
    else if f.scaledMesh ≠ [] then some f.scaledMesh
    else none
  match kps with
  | none =>
    match f.boundingBox with
    | some bb => setLandmarksFromBasic s bb
    | none => s
  | some kplist =>
    let newL := kplist.map (convertKeypoint s.videoWidth s.videoHeight)
    if s.realLandmarks = [] then
      { s with realLandmarks := newL, smoothedLandmarks := newL }
    else
      let sm := smoothLandmarks s.smoothedLandmarks newL
      { s with smoothedLandmarks := sm, realLandmarks := sm }

/-- The synthesized fallback box of performFallbackFaceDetection (script.js
lines 1012-1029), as a function of the math primitives, the video
dimensions and Date.now(); time is now * 0.001. -/
def fallbackBox (msin mcos : ℚ → ℚ) (w h now : ℚ) : Box :=
  let centerX := w / 2
  let centerY := h / 2
  let faceWidth := min w h * (4/10)
  let faceHeight := faceWidth * (12/10)
  let time := now * (1/1000)
  ⟨centerX + msin (time * (5/10)) * 10,
   centerY + mcos (time * (3/10)) * 5,
   faceWidth + msin (time * (2/10)) * 5,
   faceHeight + mcos (time * (15/100)) * 8⟩

/-- performFallbackFaceDetection (script.js lines 1007-1041): refuses when
the webcam is absent or a video dimension is zero; otherwise stores the
synthesized box and derives the six basic landmarks from its normalized
center and extent. -/
def performFallbackFaceDetection (msin mcos : ℚ → ℚ) (s : TrackState) (now : ℚ) :
    Bool × TrackState :=
  if s.webcamPresent = false ∨ s.videoWidth = 0 ∨ s.videoHeight = 0 then
    (false, s)
  else
    let box := fallbackBox msin mcos s.videoWidth s.videoHeight now
    let s1 := { s with faceBoundingBox := some box }
    let s2 := setLandmarksFromBasic s1
      ⟨box.x / s.videoWidth, box.y / s.videoHeight,
       box.width / s.videoWidth, box.height / s.videoHeight⟩
    (true, s2)

/-- The outcome of one call to the external detector: it may throw, or
return a (possibly empty) list of face records. A missing detector is the
isModelLoaded/modelPresent guard being false in the state. -/
inductive DetectorOutcome where
  | throws
  | ok (faces : List Face)
deriving DecidableEq, Repr

/-- The detected-mode update for the first face (script.js lines 976-987):
updateFaceBoundingBox runs first, so the box target uses the landmarks of
the previous frame, then extractLandmarks refreshes the landmarks. -/
def detectedUpdate (s : TrackState) (f : Face) : TrackState :=
  extractLandmarks (updateFaceBoundingBox s) f

/-- The body of the try block of performContinuousFacialDetection (script.js
lines 958-1001) in the exception monad: a throwing detector surfaces as an
error here; the guard requires the model to be loaded and the webcam to have
positive dimensions. -/
def innerDetection (s : TrackState) (d : DetectorOutcome) :
    Except Unit (Bool × TrackState) :=
  if s.isModelLoaded = true ∧ s.modelPresent = true ∧ s.webcamPresent = true ∧
      0 < s.videoWidth ∧ 0 < s.videoHeight then
    match d with
    | .throws => .error ()
    | .ok [] => .ok (false, s)
    | .ok (f :: _) => .ok (true, detectedUpdate s f)
  else .ok (false, s)

/-- performContinuousFacialDetection with its catch block: any detector
exception is swallowed and the call reports a failed detection for this
frame with the state untouched. -/
def performContinuousFacialDetection (s : TrackState) (d : DetectorOutcome) :
    Bool × TrackState :=
  match innerDetection s d with
  | .error _ => (false, s)
  | .ok r => r

/-- What the per-frame update drew: detected-mode overlay, fallback-mode
overlay, or the scanning effect. -/
inductive Mode where
  | detected
  | fallback
  | scanning
deriving DecidableEq, Repr

/-- One frame of updateFacialAnalysisOverlay (script.js lines 907-954)
restricted to its tracking effect: run detection, use detected mode when a
face was found and a box is held, otherwise try the fallback and fall back
to the scanning effect. -/
def overlayStep (msin mcos : ℚ → ℚ) (s : TrackState) (d : DetectorOutcome)
    (now : ℚ) : Mode × TrackState :=
  let r := performContinuousFacialDetection s d
  if r.1 = true ∧ r.2.faceBoundingBox.isSome = true then
    (Mode.detected, r.2)
  else
    let fb := performFallbackFaceDetection msin mcos r.2 now
    if fb.1 = true then (Mode.fallback, fb.2) else (Mode.scanning, fb.2)

/-- Iterate overlayStep over a list of frames, each with its detector
outcome and timestamp, collecting the per-frame modes. -/
def overlayRun (msin mcos : ℚ → ℚ) (s : TrackState) :
    List (DetectorOutcome × ℚ) → List Mode × TrackState
  | [] => ([], s)
  | (d, now) :: rest =>
    let r := overlayStep msin mcos s d now
    let rr := overlayRun msin mcos r.2 rest
    (r.1 :: rr.1, rr.2)

/-! Claim C8: exactness of the landmark smoothing filter. -/

lemma smoothAux_get (newL : List P3) :
    ∀ (smoothed : List P3) (i : ℕ) (np : P3),
    newL.get? i = some np →
    (smoothAux newL smoothed).get? i =
      some (blendPoint ((smoothed.get? i).getD np) np) := by
  induction newL with
  | nil =>
    intro smoothed i np h
    simp [List.get?] at h
  | cons np0 nps ih =>
    intro smoothed i np h
    cases smoothed with
    | nil =>
      cases i with
      | zero =>
        simp only [List.get?] at h
        injection h with h
        subst h
        rfl
      | succ i => exact ih [] i np h
    | cons op0 ops =>
      cases i with
      | zero =>
        simp only [List.get?] at h
        injection h with h
        subst h
        rfl
      | succ i => exact ih ops i np h

/-- Claim C8: whenever the smoothed frame is nonempty and index i is present
in both the held smoothed frame and the incoming raw frame, the smoothing
step moves every coordinate by exactly (raw - smoothed) times the configured
factor, and that factor is 0.7. -/
theorem smoothLandmarks_exact_filter (smoothed newL : List P3) (i : ℕ)
    (op np : P3) (hs : smoothed ≠ []) (ho : smoothed.get? i = some op)
    (hn : newL.get? i = some np) :
    (smoothLandmarks smoothed newL).get? i =
      some ⟨op.x + (np.x - op.x) * landmarkSmoothingFactor,
            op.y + (np.y - op.y) * landmarkSmoothingFactor,
            op.z + (np.z - op.z) * landmarkSmoothingFactor⟩ ∧
    landmarkSmoothingFactor = 7/10 := by
  refine ⟨?_, rfl⟩
  unfold smoothLandmarks
  rw [if_neg hs, smoothAux_get newL smoothed i np hn, ho]
  rfl

/-- Witness for smoothLandmarks_exact_filter on a concrete frame pair. -/
theorem smoothLandmarks_exact_filter_witness :
    (smoothLandmarks [(⟨0, 0, 0⟩ : P3)] [(⟨10, 20, 30⟩ : P3)]).get? 0 =
      some ⟨0 + (10 - 0) * landmarkSmoothingFactor,
            0 + (20 - 0) * landmarkSmoothingFactor,
            0 + (30 - 0) * landmarkSmoothingFactor⟩ ∧
    landmarkSmoothingFactor = 7/10 :=
  smoothLandmarks_exact_filter [⟨0, 0, 0⟩] [⟨10, 20, 30⟩] 0 ⟨0, 0, 0⟩
    ⟨10, 20, 30⟩ (by decide) rfl rfl

/-! Claim C10: stored landmarks are 3-component points, distance is total. -/

/-- Claim C10: every converted keypoint is stored as a 3-component point
whose z is the carried z defaulted to 0 when absent; conversion preserves
the point count; the bounding-box-derived basic landmarks all carry z = 0;
and the radicand of the distance helper on any two stored points is
nonnegative, so Math.sqrt applied to it is a well-defined real number (never
applied to an undefined coordinate, since every stored point has exactly the
three components by construction). -/
theorem landmark_extraction_three_components (w h : ℚ) (kp : Keypoint)
    (kps : List Keypoint) (bb : NormBox) (p q r : P3)
    (hr : r ∈ createBasicLandmarksFromBoundingBox w h bb) :
    (convertKeypoint w h kp).z = kp.zRaw.getD 0 ∧
    (kps.map (convertKeypoint w h)).length = kps.length ∧
    r.z = 0 ∧
    0 ≤ distanceSq p q := by
  refine ⟨?_, List.length_map _ _, ?_, ?_⟩
  · unfold convertKeypoint
    dsimp only
    split <;> rfl
  · simp only [createBasicLandmarksFromBoundingBox, List.mem_cons,
      List.not_mem_nil, or_false] at hr
    rcases hr with rfl | rfl | rfl | rfl | rfl | rfl <;> rfl
  · unfold distanceSq
    dsimp only
    have h1 := mul_self_nonneg (p.x - q.x)
    have h2 := mul_self_nonneg (p.y - q.y)
    have h3 := mul_self_nonneg (p.z - q.z)
    linarith

/-- Witness for landmark_extraction_three_components at a concrete basic
landmark of a concrete box. -/
theorem landmark_extraction_three_components_witness :
    (convertKeypoint 100 200 (Keypoint.objPt 3 4 none)).z =
      (Keypoint.objPt 3 4 none).zRaw.getD 0 ∧
    (([Keypoint.objPt 3 4 none] : List Keypoint).map
      (convertKeypoint 100 200)).length =
      ([Keypoint.objPt 3 4 none] : List Keypoint).length ∧
    (⟨(30:ℚ), 70, 0⟩ : P3).z = 0 ∧
    0 ≤ distanceSq ⟨1, 2, 3⟩ ⟨4, 5, 6⟩ :=
  landmark_extraction_three_components 100 200 (Keypoint.objPt 3 4 none)
    [Keypoint.objPt 3 4 none] ⟨1/2, 1/2, 1, 1⟩ ⟨1, 2, 3⟩ ⟨4, 5, 6⟩
    ⟨30, 70, 0⟩ (by norm_num [createBasicLandmarksFromBoundingBox])

/-! Claim C9: determinism of the fallback bounding box. -/

lemma fallback_box_spec (msin mcos : ℚ → ℚ) (s : TrackState) (now : ℚ)
    (hw : s.webcamPresent = true) (hx : s.videoWidth ≠ 0)
    (hy : s.videoHeight ≠ 0) :
    (performFallbackFaceDetection msin mcos s now).1 = true ∧
    (performFallbackFaceDetection msin mcos s now).2.faceBoundingBox =
      some (fallbackBox msin mcos s.videoWidth s.videoHeight now) ∧
    (performFallbackFaceDetection msin mcos s now).2.realLandmarks ≠ [] ∧
    (performFallbackFaceDetection msin mcos s now).2.videoWidth = s.videoWidth ∧
    (performFallbackFaceDetection msin mcos s now).2.videoHeight = s.videoHeight ∧
    (performFallbackFaceDetection msin mcos s now).2.webcamPresent = s.webcamPresent ∧
    (performFallbackFaceDetection msin mcos s now).2.faceCenter = s.faceCenter := by
  unfold performFallbackFaceDetection
  rw [if_neg (by simp [hw, hx, hy])]
  refine ⟨rfl, rfl, ?_, rfl, rfl, rfl, rfl⟩
  simp [setLandmarksFromBasic, createBasicLandmarksFromBoundingBox]

/-- Claim C9: the fallback bounding box is a deterministic function of the
timestamp and the video dimensions: two fallback computations from any two
tracker states sharing the same timestamp and dimensions produce the same
box, namely fallbackBox of those dimensions and that timestamp. -/
theorem fallbackBox_deterministic (msin mcos : ℚ → ℚ) (s1 s2 : TrackState)
    (now : ℚ) (hew : s1.videoWidth = s2.videoWidth)
    (heh : s1.videoHeight = s2.videoHeight)
    (hw1 : s1.webcamPresent = true) (hw2 : s2.webcamPresent = true)
    (hx : s1.videoWidth ≠ 0) (hy : s1.videoHeight ≠ 0) :
    (performFallbackFaceDetection msin mcos s1 now).2.faceBoundingBox =
      (performFallbackFaceDetection msin mcos s2 now).2.faceBoundingBox ∧
    (performFallbackFaceDetection msin mcos s1 now).2.faceBoundingBox =
      some (fallbackBox msin mcos s1.videoWidth s1.videoHeight now) := by
  have h1 := fallback_box_spec msin mcos s1 now hw1 hx hy
  have h2 := fallback_box_spec msin mcos s2 now hw2 (hew ▸ hx) (heh ▸ hy)
  refine ⟨?_, h1.2.1⟩
  rw [h1.2.1, h2.2.1, hew, heh]

/-- Witness for fallbackBox_deterministic at two concrete states with the
same dimensions but different landmark and box histories. -/
theorem fallbackBox_deterministic_witness :
    (performFallbackFaceDetection (fun _ => 0) (fun _ => 0)
      ⟨300, 300, true, false, false, [], [], none, (0, 0)⟩ 0).2.faceBoundingBox =
      (performFallbackFaceDetection (fun _ => 0) (fun _ => 0)
        ⟨300, 300, true, true, true, [⟨1, 2, 3⟩], [⟨1, 2, 3⟩],
          some ⟨9, 9, 9, 9⟩, (7, 7)⟩ 0).2.faceBoundingBox ∧
    (performFallbackFaceDetection (fun _ => 0) (fun _ => 0)
      ⟨300, 300, true, false, false, [], [], none, (0, 0)⟩ 0).2.faceBoundingBox =
      some (fallbackBox (fun _ => 0) (fun _ => 0) 300 300 0) :=
  fallbackBox_deterministic (fun _ => 0) (fun _ => 0)
    ⟨300, 300, true, false, false, [], [], none, (0, 0)⟩
    ⟨300, 300, true, true, true, [⟨1, 2, 3⟩], [⟨1, 2, 3⟩],
      some ⟨9, 9, 9, 9⟩, (7, 7)⟩ 0 rfl rfl rfl rfl (by norm_num) (by norm_num)

/-! Claim C6: the stored box versus the landmark extents. -/

def zeroFun : ℚ → ℚ := fun _ => 0

/-- A fresh tracker with a 300 by 300 video and no loaded model. -/
def c6Start : TrackState :=
  { videoWidth := 300, videoHeight := 300, webcamPresent := true,
    isModelLoaded := false, modelPresent := false,
    realLandmarks := [], smoothedLandmarks := [],
    faceBoundingBox := none, faceCenter := (0, 0) }

/-- The tracker state after one frame with no detector result: the fallback
path stores the synthesized box and derives the six basic landmarks. -/
def c6State : TrackState :=
  (performFallbackFaceDetection zeroFun zeroFun c6Start 0).2

/-- Claim C6 counterexample: after the first tracking update from a fresh
state (fallback path, zero math primitives so all jitter terms vanish), the
stored box is centered at (150, 150) with size 120 by 144, while the min/max
extents of the stored smoothed landmarks form the box centered at
(150, 164.4) with size 48 by 72; the two differ, and faceCenter, still at
its initial (0, 0), does not equal the box center either. -/
theorem boundingBox_not_extents_of_landmarks_cex :
    overlayStep zeroFun zeroFun c6Start (DetectorOutcome.ok []) 0 =
      (Mode.fallback, c6State) ∧
    c6State.faceBoundingBox = some ⟨150, 150, 120, 144⟩ ∧
    extentsBox c6State.smoothedLandmarks = ⟨150, 822/5, 48, 72⟩ ∧
    c6State.faceCenter = (0, 0) ∧
    some ((⟨150, 150, 120, 144⟩ : Box)) ≠ some ((⟨150, 822/5, 48, 72⟩ : Box)) ∧
    ((0 : ℚ), (0 : ℚ)) ≠ ((150 : ℚ), (150 : ℚ)) := by
  have h1 : performContinuousFacialDetection c6Start (DetectorOutcome.ok []) =
      (false, c6Start) := by
    simp [performContinuousFacialDetection, innerDetection, c6Start]
  have hbox : fallbackBox zeroFun zeroFun 300 300 0 = ⟨150, 150, 120, 144⟩ := by
    norm_num [fallbackBox, zeroFun]
  have h2 : c6State =
      { c6Start with
          faceBoundingBox := some ⟨150, 150, 120, 144⟩,
          realLandmarks := createBasicLandmarksFromBoundingBox 300 300
            ⟨1/2, 1/2, 2/5, 12/25⟩,
          smoothedLandmarks := createBasicLandmarksFromBoundingBox 300 300
            ⟨1/2, 1/2, 2/5, 12/25⟩ } := by
    unfold c6State performFallbackFaceDetection
    rw [if_neg (by norm_num [c6Start])]
    show setLandmarksFromBasic _ _ = _
    rw [show c6Start.videoWidth = 300 from rfl, show c6Start.videoHeight = 300 from rfl,
      hbox]
    unfold setLandmarksFromBasic
    norm_num [c6Start]
  have hlm : createBasicLandmarksFromBoundingBox 300 300 ⟨1/2, 1/2, 2/5, 12/25⟩ =
      [⟨126, 642/5, 0⟩, ⟨174, 642/5, 0⟩, ⟨150, 150, 0⟩,
       ⟨132, 894/5, 0⟩, ⟨168, 894/5, 0⟩, ⟨150, 1002/5, 0⟩] := by
    norm_num [createBasicLandmarksFromBoundingBox]
  refine ⟨?_, ?_, ?_, ?_, ?_, ?_⟩
  · show (let r := performContinuousFacialDetection c6Start (DetectorOutcome.ok []);
      if r.1 = true ∧ r.2.faceBoundingBox.isSome = true then (Mode.detected, r.2)
      else
        let fb := performFallbackFaceDetection zeroFun zeroFun r.2 0
        if fb.1 = true then (Mode.fallback, fb.2)
        else (Mode.scanning, fb.2)) = (Mode.fallback, c6State)
    rw [h1]
    have hfb := fallback_box_spec zeroFun zeroFun c6Start 0 rfl
      (by norm_num [c6Start]) (by norm_num [c6Start])
    rw [if_neg (by simp)]
    rw [if_pos hfb.1]
    rfl
  · rw [h2]
  · rw [h2]
    simp only
    rw [hlm]
    norm_num [extentsBox, listMin, listMax, min_def, max_def]
  · rw [h2]
    rfl
  · simp only [ne_eq, Option.some.injEq, Box.mk.injEq]
    norm_num
  · simp only [ne_eq, Prod.mk.injEq]
    norm_num

/-- The box value a single updateFaceBoundingBox call stores, written from
the amended claim wording: the extents box of the landmarks held at call
time, adopted directly for the first box and otherwise approached by a 0.3
exponential step from the previously stored box. -/
def boxTarget (s : TrackState) : Box :=
  match s.faceBoundingBox with
  | none => extentsBox s.realLandmarks
  | some old =>
    let nb := extentsBox s.realLandmarks
    ⟨old.x + (nb.x - old.x) * (3/10),
     old.y + (nb.y - old.y) * (3/10),
     old.width + (nb.width - old.width) * (3/10),
     old.height + (nb.height - old.height) * (3/10)⟩

/-- Claim C6 amended: on each detected-mode box update with landmarks held,
the stored box is the 0.3-smoothed approach to the extents box of the
landmarks held at call time (equal to the extents box itself on the first
update), faceCenter mirrors the stored box center, and the landmarks are not
modified by the box update; on the fallback path the box is the synthesized
time-driven box and faceCenter is left unchanged. -/
theorem updateFaceBoundingBox_smoothed_target (s s2 : TrackState)
    (msin mcos : ℚ → ℚ) (now : ℚ) (h : s.realLandmarks ≠ [])
    (hw : s2.webcamPresent = true) (hx : s2.videoWidth ≠ 0)
    (hy : s2.videoHeight ≠ 0) :
    (updateFaceBoundingBox s).faceBoundingBox = some (boxTarget s) ∧
    (updateFaceBoundingBox s).faceCenter = ((boxTarget s).x, (boxTarget s).y) ∧
    (s.faceBoundingBox = none → boxTarget s = extentsBox s.realLandmarks) ∧
    (updateFaceBoundingBox s).smoothedLandmarks = s.smoothedLandmarks ∧
    (performFallbackFaceDetection msin mcos s2 now).2.faceBoundingBox =
      some (fallbackBox msin mcos s2.videoWidth s2.videoHeight now) ∧
    (performFallbackFaceDetection msin mcos s2 now).2.faceCenter =
      s2.faceCenter := by
  have hfb := fallback_box_spec msin mcos s2 now hw hx hy
  refine ⟨?_, ?_, ?_, ?_, hfb.2.1, hfb.2.2.2.2.2.2⟩
  · unfold updateFaceBoundingBox
    rw [if_neg h]
    cases hb : s.faceBoundingBox <;> simp [boxTarget, hb]
  · unfold updateFaceBoundingBox
    rw [if_neg h]
    cases hb : s.faceBoundingBox <;> simp [boxTarget, hb]
  · intro hnone
    simp [boxTarget, hnone]
  · unfold updateFaceBoundingBox
    rw [if_neg h]

/-- The concrete state used to witness the amended C6 theorem. -/
def c6WitnessState : TrackState :=
  { videoWidth := 300, videoHeight := 300, webcamPresent := true,
    isModelLoaded := true, modelPresent := true,
    realLandmarks := [⟨0, 0, 0⟩, ⟨10, 10, 0⟩],
    smoothedLandmarks := [⟨0, 0, 0⟩, ⟨10, 10, 0⟩],
    faceBoundingBox := some ⟨5, 5, 10, 10⟩, faceCenter := (5, 5) }

/-- Witness for updateFaceBoundingBox_smoothed_target at a concrete state. -/
theorem updateFaceBoundingBox_smoothed_target_witness :
    (updateFaceBoundingBox c6WitnessState).faceBoundingBox =
      some (boxTarget c6WitnessState) ∧
    (updateFaceBoundingBox c6WitnessState).faceCenter =
      ((boxTarget c6WitnessState).x, (boxTarget c6WitnessState).y) ∧
    (c6WitnessState.faceBoundingBox = none →
      boxTarget c6WitnessState = extentsBox c6WitnessState.realLandmarks) ∧
    (updateFaceBoundingBox c6WitnessState).smoothedLandmarks =
      c6WitnessState.smoothedLandmarks ∧
    (performFallbackFaceDetection zeroFun zeroFun c6WitnessState 0).2.faceBoundingBox =
      some (fallbackBox zeroFun zeroFun c6WitnessState.videoWidth
        c6WitnessState.videoHeight 0) ∧
    (performFallbackFaceDetection zeroFun zeroFun c6WitnessState 0).2.faceCenter =
      c6WitnessState.faceCenter :=
  updateFaceBoundingBox_smoothed_target c6WitnessState c6WitnessState
    zeroFun zeroFun 0 (by simp [c6WitnessState]) rfl
    (by norm_num [c6WitnessState]) (by norm_num [c6WitnessState])

/-! Claim C7: per-frame failure policy of the tracking loop. -/

lemma detection_empty (s : TrackState) (d : DetectorOutcome)
    (hd : d = DetectorOutcome.throws ∨ d = DetectorOutcome.ok []) :
    performContinuousFacialDetection s d = (false, s) := by
  rcases hd with rfl | rfl <;>
    · unfold performContinuousFacialDetection innerDetection
      by_cases hC : s.isModelLoaded = true ∧ s.modelPresent = true ∧
        s.webcamPresent = true ∧ 0 < s.videoWidth ∧ 0 < s.videoHeight
      · rw [if_pos hC]
      · rw [if_neg hC]

lemma extract_box (s : TrackState) (f : Face) :
    (extractLandmarks s f).faceBoundingBox = s.faceBoundingBox := by
  unfold extractLandmarks
  dsimp only
  split
  · split <;> rfl
  · split <;> rfl

lemma overlayStep_empty (msin mcos : ℚ → ℚ) (s : TrackState)
    (d : DetectorOutcome) (now : ℚ)
    (hd : d = DetectorOutcome.throws ∨ d = DetectorOutcome.ok [])
    (hw : s.webcamPresent = true) (hx : 0 < s.videoWidth)
    (hy : 0 < s.videoHeight) :
    overlayStep msin mcos s d now =
      (Mode.fallback, (performFallbackFaceDetection msin mcos s now).2) := by
  have hfb := fallback_box_spec msin mcos s now hw (ne_of_gt hx) (ne_of_gt hy)
  simp only [overlayStep]
  rw [detection_empty s d hd]
  dsimp only
  rw [if_neg (by simp), if_pos hfb.1]

lemma overlayRun_empty (msin mcos : ℚ → ℚ) :
    ∀ (frames : List (DetectorOutcome × ℚ)) (s : TrackState),
    s.webcamPresent = true → 0 < s.videoWidth → 0 < s.videoHeight →
    (∀ p ∈ frames, p.1 = DetectorOutcome.throws ∨ p.1 = DetectorOutcome.ok []) →
    (∀ m ∈ (overlayRun msin mcos s frames).1, m = Mode.fallback) ∧
    (overlayRun msin mcos s frames).2.webcamPresent = true ∧
    (overlayRun msin mcos s frames).2.videoWidth = s.videoWidth ∧
    (overlayRun msin mcos s frames).2.videoHeight = s.videoHeight ∧
    ((frames ≠ [] ∨ (s.faceBoundingBox.isSome = true ∧ s.realLandmarks ≠ [])) →
      (overlayRun msin mcos s frames).2.faceBoundingBox.isSome = true ∧
      (overlayRun msin mcos s frames).2.realLandmarks ≠ []) := by
  intro frames
  induction frames with
  | nil =>
    intro s hw hx hy hf
    refine ⟨by simp [overlayRun], hw, rfl, rfl, ?_⟩
    intro h
    rcases h with h | h
    · exact absurd rfl h
    · exact h
  | cons p rest ih =>
    obtain ⟨d, now⟩ := p
    intro s hw hx hy hf
    have hd : d = DetectorOutcome.throws ∨ d = DetectorOutcome.ok [] :=
      hf (d, now) (List.mem_cons_self _ _)
    have hstep := overlayStep_empty msin mcos s d now hd hw hx hy
    have hfb := fallback_box_spec msin mcos s now hw (ne_of_gt hx) (ne_of_gt hy)
    set s2 := (performFallbackFaceDetection msin mcos s now).2 with hs2
    have hw2 : s2.webcamPresent = true := by rw [hfb.2.2.2.2.2.1]; exact hw
    have hx2 : 0 < s2.videoWidth := by rw [hfb.2.2.2.1]; exact hx
    have hy2 : 0 < s2.videoHeight := by rw [hfb.2.2.2.2.1]; exact hy
    have hbox2 : s2.faceBoundingBox.isSome = true := by rw [hfb.2.1]; rfl
    have hlm2 : s2.realLandmarks ≠ [] := hfb.2.2.1
    have hfr : ∀ p ∈ rest, p.1 = DetectorOutcome.throws ∨ p.1 = DetectorOutcome.ok [] :=
      fun p hp => hf p (List.mem_cons_of_mem _ hp)
    have ihr := ih s2 hw2 hx2 hy2 hfr
    have hrun : overlayRun msin mcos s ((d, now) :: rest) =
        ((overlayStep msin mcos s d now).1 ::
          (overlayRun msin mcos (overlayStep msin mcos s d now).2 rest).1,
         (overlayRun msin mcos (overlayStep msin mcos s d now).2 rest).2) := rfl
    rw [hrun, hstep]
    dsimp only
    refine ⟨?_, ihr.2.1, ihr.2.2.1.trans hfb.2.2.2.1,
      ihr.2.2.2.1.trans hfb.2.2.2.2.1, ?_⟩
    · intro m hm
      rcases List.mem_cons.mp hm with rfl | hm2
      · rfl
      · exact ihr.1 m hm2
    · intro _
      exact ihr.2.2.2.2 (Or.inr ⟨hbox2, hlm2⟩)

/-- Claim C7: with the webcam live (positive dimensions), any run of frames
whose detector outcome is a throw or an empty face list keeps the tracker in
fallback mode on every frame and leaves the face bounding box defined after
the first frame; a throwing detector is absorbed by the catch block and never
escapes the per-frame update (it yields the same failed-detection result as
an empty frame, state untouched); and from any state holding landmarks, with
the model loaded, a successful detection immediately yields detected mode
again. -/
theorem tracking_fallback_resilience (msin mcos : ℚ → ℚ) (s : TrackState)
    (frames : List (DetectorOutcome × ℚ)) (s2 : TrackState) (f : Face)
    (faces : List Face) (now2 : ℚ)
    (hw : s.webcamPresent = true) (hx : 0 < s.videoWidth)
    (hy : 0 < s.videoHeight)
    (hf : ∀ p ∈ frames, p.1 = DetectorOutcome.throws ∨ p.1 = DetectorOutcome.ok [])
    (hne : frames ≠ [])
    (h2m : s2.isModelLoaded = true) (h2p : s2.modelPresent = true)
    (h2w : s2.webcamPresent = true) (h2x : 0 < s2.videoWidth)
    (h2y : 0 < s2.videoHeight) (h2l : s2.realLandmarks ≠ []) :
    ((overlayRun msin mcos s frames).1.all fun m => decide (m = Mode.fallback)) = true ∧
    (overlayRun msin mcos s frames).2.faceBoundingBox.isSome = true ∧
    performContinuousFacialDetection s2 DetectorOutcome.throws = (false, s2) ∧
    (overlayStep msin mcos s2 (DetectorOutcome.ok (f :: faces)) now2).1 =
      Mode.detected := by
  have hrun := overlayRun_empty msin mcos frames s hw hx hy hf
  refine ⟨?_, (hrun.2.2.2.2 (Or.inl hne)).1,
    detection_empty s2 DetectorOutcome.throws (Or.inl rfl), ?_⟩
  · rw [List.all_eq_true]
    intro m hm
    rw [decide_eq_true_eq]
    exact hrun.1 m hm
  · have hupd : (updateFaceBoundingBox s2).faceBoundingBox.isSome = true := by
      unfold updateFaceBoundingBox
      rw [if_neg h2l]
      rfl
    have hext : (detectedUpdate s2 f).faceBoundingBox.isSome = true := by
      unfold detectedUpdate
      rw [extract_box]
      exact hupd
    have hdet : performContinuousFacialDetection s2 (DetectorOutcome.ok (f :: faces)) =
        (true, detectedUpdate s2 f) := by
      unfold performContinuousFacialDetection innerDetection
      rw [if_pos ⟨h2m, h2p, h2w, h2x, h2y⟩]
    simp only [overlayStep]
    rw [hdet]
    dsimp only
    rw [if_pos ⟨rfl, hext⟩]

/-- A fresh tracker with the model loaded, used in the C7 witness. -/
def c7Start : TrackState :=
  { videoWidth := 300, videoHeight := 300, webcamPresent := true,
    isModelLoaded := true, modelPresent := true,
    realLandmarks := [], smoothedLandmarks := [],
    faceBoundingBox := none, faceCenter := (0, 0) }

def c7Resume : TrackState :=
  { c7Start with realLandmarks := [⟨10, 10, 0⟩] }

def c7Face : Face := ⟨[], [], [], none⟩

/-- Witness for tracking_fallback_resilience: one empty frame and one
throwing frame from a fresh state, then a successful detection from a state
holding a landmark. -/
theorem tracking_fallback_resilience_witness :
    ((overlayRun zeroFun zeroFun c7Start
        [(DetectorOutcome.ok [], 0), (DetectorOutcome.throws, 1000)]).1.all
      fun m => decide (m = Mode.fallback)) = true ∧
    (overlayRun zeroFun zeroFun c7Start
      [(DetectorOutcome.ok [], 0),
       (DetectorOutcome.throws, 1000)]).2.faceBoundingBox.isSome = true ∧
    performContinuousFacialDetection c7Resume DetectorOutcome.throws =
      (false, c7Resume) ∧
    (overlayStep zeroFun zeroFun c7Resume
      (DetectorOutcome.ok (c7Face :: [])) 7).1 = Mode.detected :=
  tracking_fallback_resilience zeroFun zeroFun c7Start
    [(DetectorOutcome.ok [], 0), (DetectorOutcome.throws, 1000)]
    c7Resume c7Face [] 7 rfl (by norm_num [c7Start]) (by norm_num [c7Start])
    (by simp) (by simp) rfl rfl rfl (by norm_num [c7Resume, c7Start])
    (by norm_num [c7Resume, c7Start]) (by simp [c7Resume])

end SmileMirror
